import Mathlib

/-!
Verification of the AudibleLight dataset generator (src/utils.py, src/generator.py)
against its natural-language specification.

The embedding models:
* the microphone placement sampler `add_random_microphone` (utils.py lines 529-593),
* the foreground-event placement sampler `add_random_fg_event` (utils.py lines 596-695),
* the config coercion helpers `_coerce_int`, `_coerce_float`, `_coerce_str`
  (utils.py lines 233-295) and the scene-section build of `load_config`,
* mesh provisioning `list_mesh_files` / `ensure_meshes` (utils.py lines 434-505),
* the render postcondition check and output materializer of `main`
  (generator.py lines 119-131).

Randomness: numpy's `np.random.Generator` is modelled as a stream
`draws : Nat -> Rat` of unit-interval samples together with an index that each
drawing operation advances.  `rng.random(3)` consumes three consecutive stream
elements; `rng.uniform(a, b)` maps one element u to `a + (b - a) * u`;
`rng.integers(0, n)` maps one element u to `floor (u * n)`.

The external scene object is modelled by its observable contract: a Boolean
acceptance predicate (accept = the call returns normally; reject = the call
raises ValueError), and every attempted backend call is recorded in a trace.
-/

/-- A 3-vector of rationals, modelling a numpy position array. -/
structure Vec3 where
  x : ℚ
  y : ℚ
  z : ℚ
  deriving DecidableEq

/-- `rng.random(3)` at stream index `idx`: three consecutive unit draws. -/
def sampleUnitVec (draws : ℕ → ℚ) (idx : ℕ) : Vec3 :=
  ⟨draws idx, draws (idx + 1), draws (idx + 2)⟩

/-- `lo + (hi - lo) * u`, componentwise: the position formula of utils.py
lines 566 and 654. -/
def affinePoint (lo hi u : Vec3) : Vec3 :=
  ⟨lo.x + (hi.x - lo.x) * u.x,
   lo.y + (hi.y - lo.y) * u.y,
   lo.z + (hi.z - lo.z) * u.z⟩

/-- Componentwise membership of `p` in the axis-aligned box `[lo, hi]`. -/
def inAABB (lo hi p : Vec3) : Prop :=
  (lo.x ≤ p.x ∧ p.x ≤ hi.x) ∧ (lo.y ≤ p.y ∧ p.y ≤ hi.y) ∧ (lo.z ≤ p.z ∧ p.z ≤ hi.z)

/-- Componentwise `lo ≤ hi`. -/
def vecLE (lo hi : Vec3) : Prop :=
  lo.x ≤ hi.x ∧ lo.y ≤ hi.y ∧ lo.z ≤ hi.z

/-- All unit draws of the stream lie in `[0, 1)`, as numpy guarantees for
`rng.random` and for the unit samples behind `rng.uniform`. -/
def unitStream (draws : ℕ → ℚ) : Prop :=
  ∀ n, 0 ≤ draws n ∧ draws n < 1

/-! ## Microphone placement (`add_random_microphone`, utils.py lines 529-593) -/

/-- The scene's observable contract for `scene.add_microphone`:
`acceptPos p` is `true` when the call with explicit position `p` returns
normally and `false` when it raises ValueError; `acceptNone` likewise for the
call with `position=None`. -/
structure MicScene where
  acceptPos : Vec3 → Bool
  acceptNone : Bool

/-- One attempted `scene.add_microphone` call: Mode A supplies an explicit
position, Mode B passes `position=None`. -/
inductive MicAttempt where
  | modeA (pos : Vec3)
  | modeB
  deriving DecidableEq

/-- Result of a placement call: the returned Boolean, the trace of attempted
backend calls in order, and the advanced rng stream index. -/
structure MicResult where
  ok : Bool
  trace : List MicAttempt
  rngIdx : ℕ
  deriving DecidableEq

/-- The `rng_needed=False` branch of `add_random_microphone`
(utils.py lines 585-593): a single backend-driven attempt, consuming no rng. -/
def micModeB (scene : MicScene) (idx : ℕ) : MicResult :=
  { ok := scene.acceptNone, trace := [MicAttempt.modeB], rngIdx := idx }

/-- The `for attempt in range(max_attempts)` loop of `add_random_microphone`
(utils.py lines 565-584), with `remaining` attempts left.  The Python guard
`attempt == max_attempts - 1` holds exactly when `remaining = 1`, and the
recursive fallback call with `rng_needed=False` is `micModeB`. -/
def micLoop (scene : MicScene) (lo hi : Vec3) (draws : ℕ → ℚ) :
    ℕ → ℕ → MicResult
  | idx, 0 => { ok := false, trace := [], rngIdx := idx }
  | idx, remaining + 1 =>
    let pos := affinePoint lo hi (sampleUnitVec draws idx)
    if scene.acceptPos pos then
      { ok := true, trace := [MicAttempt.modeA pos], rngIdx := idx + 3 }
    else if remaining = 0 then
      let fb := micModeB scene (idx + 3)
      { ok := fb.ok, trace := MicAttempt.modeA pos :: fb.trace, rngIdx := fb.rngIdx }
    else
      let rest := micLoop scene lo hi draws (idx + 3) remaining
      { ok := rest.ok, trace := MicAttempt.modeA pos :: rest.trace, rngIdx := rest.rngIdx }

/-- `add_random_microphone` (utils.py lines 529-593). -/
def add_random_microphone (scene : MicScene) (lo hi : Vec3) (draws : ℕ → ℚ)
    (idx : ℕ) (rng_needed : Bool) (max_attempts : ℕ) : MicResult :=
  if rng_needed then micLoop scene lo hi draws idx max_attempts
  else micModeB scene idx

/-! ## Foreground-event placement (`add_random_fg_event`, utils.py lines 596-695) -/

/-- `rng.uniform(a, b)` applied to the unit draw `u`. -/
def uniformDraw (a b u : ℚ) : ℚ := a + (b - a) * u

/-- `rng.integers(0, n)` applied to the unit draw `u`. -/
def intDraw (n : ℕ) (u : ℚ) : ℕ := (Rat.floor (u * n)).toNat

/-- One attempted `scene.add_event_static` call with every argument the code
passes: the chosen file (index into `fg_files`), the position (`some p` in
Mode A, `none` in Mode B), scene start, duration, snr, `class_id`, and the
`augmentations` argument (`some 3` in Mode A, absent in Mode B). -/
structure EventCall where
  wav : ℕ
  pos : Option Vec3
  start : ℚ
  duration : ℚ
  snr : ℚ
  classId : ℕ
  augments : Option ℕ
  deriving DecidableEq

/-- The scene's observable contract for `scene.add_event_static`:
`accept c = true` when the call returns normally, `false` when it raises
ValueError. -/
structure EventScene where
  accept : EventCall → Bool

/-- Result of an event placement call. -/
structure EventResult where
  ok : Bool
  trace : List EventCall
  rngIdx : ℕ
  deriving DecidableEq

/-- The four per-event draws of utils.py lines 640-643, executed at the top of
every `add_random_fg_event` call: file choice, duration, start time, snr.
They consume four consecutive rng stream elements. -/
def fgDrawWav (nFiles : ℕ) (draws : ℕ → ℚ) (idx : ℕ) : ℕ :=
  intDraw nFiles (draws idx)

def fgDrawDuration (dmin dmax : ℚ) (draws : ℕ → ℚ) (idx : ℕ) : ℚ :=
  uniformDraw dmin dmax (draws (idx + 1))

def fgDrawStart (sd dmin dmax : ℚ) (draws : ℕ → ℚ) (idx : ℕ) : ℚ :=
  uniformDraw 0 (sd - fgDrawDuration dmin dmax draws idx) (draws (idx + 2))

def fgDrawSnr (smin smax : ℚ) (draws : ℕ → ℚ) (idx : ℕ) : ℚ :=
  uniformDraw smin smax (draws (idx + 3))

/-- The `scene.add_event_static` call of the Mode A attempt (utils.py lines
656-664): explicit position, the four fixed per-event parameters, `class_id=0`
and `augmentations=3`. -/
def fgModeACall (w : ℕ) (dur st sn : ℚ) (p : Vec3) : EventCall :=
  { wav := w, pos := some p, start := st, duration := dur, snr := sn,
    classId := 0, augments := some 3 }

/-- The `scene.add_event_static` call of the Mode B branch (utils.py lines
685-692): `position=None`, `class_id=0`, no `augmentations` argument, and the
four event parameters freshly drawn at rng index `idx` (lines 640-643 run
again on the recursive call). -/
def fgModeBCall (nFiles : ℕ) (sd dmin dmax smin smax : ℚ)
    (draws : ℕ → ℚ) (idx : ℕ) : EventCall :=
  { wav := fgDrawWav nFiles draws idx
    pos := none
    start := fgDrawStart sd dmin dmax draws idx
    duration := fgDrawDuration dmin dmax draws idx
    snr := fgDrawSnr smin smax draws idx
    classId := 0
    augments := none }

/-- The `rng_needed=False` branch of `add_random_fg_event` (utils.py lines
683-695), which still begins with the four fresh draws of lines 640-643: a
single backend-driven attempt with `position=None` and `class_id=0`. -/
def fgModeB (scene : EventScene) (nFiles : ℕ) (sd dmin dmax smin smax : ℚ)
    (draws : ℕ → ℚ) (idx : ℕ) : EventResult :=
  let call := fgModeBCall nFiles sd dmin dmax smin smax draws idx
  { ok := scene.accept call, trace := [call], rngIdx := idx + 4 }

/-- The 10%-margin shrink of utils.py lines 649-652: the lower corner moves up
by `(hi - lo) * 0.1` and the upper corner down by the same margin. -/
def shrinkLo (lo hi : Vec3) : Vec3 :=
  ⟨lo.x + (hi.x - lo.x) * (1/10),
   lo.y + (hi.y - lo.y) * (1/10),
   lo.z + (hi.z - lo.z) * (1/10)⟩

def shrinkHi (lo hi : Vec3) : Vec3 :=
  ⟨hi.x - (hi.x - lo.x) * (1/10),
   hi.y - (hi.y - lo.y) * (1/10),
   hi.z - (hi.z - lo.z) * (1/10)⟩

/-- The `for attempt in range(max_attempts)` loop of `add_random_fg_event`
(utils.py lines 653-682) over the already-shrunk bounds, carrying the four
fixed per-event draws `w`, `dur`, `st`, `sn`.  The guard
`attempt == max_attempts - 1` holds exactly when `remaining = 1`, and the
recursive fallback call with `rng_needed=False` re-enters the full function,
hence re-draws all four event parameters: it is `fgModeB` at the advanced rng
index. -/
def fgLoop (scene : EventScene) (nFiles : ℕ) (sd dmin dmax smin smax : ℚ)
    (lo hi : Vec3) (draws : ℕ → ℚ) (w : ℕ) (dur st sn : ℚ) :
    ℕ → ℕ → EventResult
  | idx, 0 => { ok := false, trace := [], rngIdx := idx }
  | idx, remaining + 1 =>
    let pos := affinePoint lo hi (sampleUnitVec draws idx)
    let call := fgModeACall w dur st sn pos
    if scene.accept call then
      { ok := true, trace := [call], rngIdx := idx + 3 }
    else if remaining = 0 then
      let fb := fgModeB scene nFiles sd dmin dmax smin smax draws (idx + 3)
      { ok := fb.ok, trace := call :: fb.trace, rngIdx := fb.rngIdx }
    else
      let rest := fgLoop scene nFiles sd dmin dmax smin smax lo hi draws w dur st sn
        (idx + 3) remaining
      { ok := rest.ok, trace := call :: rest.trace, rngIdx := rest.rngIdx }

/-- `add_random_fg_event` (utils.py lines 596-695).  `nFiles` is
`len(fg_files)` and a call's `wav` field is the index of the chosen file. -/
def add_random_fg_event (scene : EventScene) (nFiles : ℕ)
    (sd dmin dmax smin smax : ℚ) (lo hi : Vec3) (draws : ℕ → ℚ)
    (idx : ℕ) (rng_needed : Bool) (max_attempts : ℕ) : EventResult :=
  if rng_needed then
    fgLoop scene nFiles sd dmin dmax smin smax (shrinkLo lo hi) (shrinkHi lo hi) draws
      (fgDrawWav nFiles draws idx)
      (fgDrawDuration dmin dmax draws idx)
      (fgDrawStart sd dmin dmax draws idx)
      (fgDrawSnr smin smax draws idx)
      (idx + 4) max_attempts
  else
    fgModeB scene nFiles sd dmin dmax smin smax draws idx

/-- The per-scene event loop of generator.py lines 89-102: place
`events_per_scene` events in sequence, each via `add_random_fg_event` with
`rng_needed=False` and `max_attempts=30`, threading the rng state; returns the
concatenated trace of attempted backend calls and the final rng index. -/
def driverPlaceEvents (scene : EventScene) (nFiles : ℕ)
    (sd dmin dmax smin smax : ℚ) (lo hi : Vec3) (draws : ℕ → ℚ) :
    ℕ → ℕ → List EventCall × ℕ
  | idx, 0 => ([], idx)
  | idx, n + 1 =>
    let r := add_random_fg_event scene nFiles sd dmin dmax smin smax lo hi draws idx false 30
    let rest := driverPlaceEvents scene nFiles sd dmin dmax smin smax lo hi draws r.rngIdx n
    (r.trace ++ rest.1, rest.2)

/-- `AlwaysClass0Mapping.infer_label_idx_from_filepath` (utils.py lines 85-87). -/
def infer_label_idx_from_filepath (_filepath : String) : ℕ × String :=
  (0, "dummy")

/-- A concrete unit-draw stream used for concrete instantiations: `1/4` at
stream position 3, `3/4` at stream position 10, `0` elsewhere. -/
def counterexampleDraws : ℕ → ℚ :=
  fun n => if n = 3 then 1/4 else if n = 10 then 3/4 else 0

/-! ## Config coercion (utils.py lines 212-322 and the scene section of
`load_config`, lines 389-397) -/

/-- A YAML-loaded Python value, tagged by its runtime type as `isinstance`
observes it (a Python `bool` is not modelled as an `int`: the code's explicit
`isinstance(value, bool)` pre-checks are what the separate tag encodes). -/
inductive PyVal where
  | pyBool (b : Bool)
  | pyInt (n : ℤ)
  | pyFloat (q : ℚ)
  | pyStr (s : String)
  | pyNone
  deriving DecidableEq

/-- `_coerce_bool` (utils.py lines 212-230). -/
def _coerce_bool (value : PyVal) (key_name : String) : Except String Bool :=
  match value with
  | .pyBool b => .ok b
  | _ => .error ("Config key " ++ key_name ++ " must be a boolean.")

/-- `_coerce_int` (utils.py lines 233-251): rejects booleans explicitly, then
anything that is not an `int`; floats and strings are never coerced. -/
def _coerce_int (value : PyVal) (key_name : String) : Except String ℤ :=
  match value with
  | .pyBool _ => .error ("Config key " ++ key_name ++ " must be an integer.")
  | .pyInt n => .ok n
  | _ => .error ("Config key " ++ key_name ++ " must be an integer.")

/-- `_coerce_float` (utils.py lines 254-272): rejects booleans explicitly,
accepts ints (converted to float) and floats. -/
def _coerce_float (value : PyVal) (key_name : String) : Except String ℚ :=
  match value with
  | .pyBool _ => .error ("Config key " ++ key_name ++ " must be a number.")
  | .pyInt n => .ok (n : ℚ)
  | .pyFloat q => .ok q
  | _ => .error ("Config key " ++ key_name ++ " must be a number.")

/-- `_coerce_str` (utils.py lines 275-295): accepts non-empty strings only. -/
def _coerce_str (value : PyVal) (key_name : String) : Except String String :=
  match value with
  | .pyStr s =>
    if s = "" then .error ("Config key " ++ key_name ++ " must not be empty.")
    else .ok s
  | _ => .error ("Config key " ++ key_name ++ " must be a string.")

/-- The validated `SceneConfig` record (utils.py lines 46-55). -/
structure SceneSection where
  sample_rate : ℤ
  scene_duration : ℚ
  max_overlap : ℤ
  mic_type : String
  bg_noise_floor_db : ℚ
  deriving DecidableEq

/-- The scene-section coercion of `load_config` (utils.py lines 389-397),
applied to the merged scene section `m` (key, merged value). -/
def buildSceneSection (m : String → PyVal) : Except String SceneSection := do
  let sr ← _coerce_int (m "sample_rate") "scene.sample_rate"
  let sd ← _coerce_float (m "scene_duration") "scene.scene_duration"
  let mo ← _coerce_int (m "max_overlap") "scene.max_overlap"
  let mt ← _coerce_str (m "mic_type") "scene.mic_type"
  let bg ← _coerce_float (m "bg_noise_floor_db") "scene.bg_noise_floor_db"
  pure ⟨sr, sd, mo, mt, bg⟩

/-! ## String ordering (Python's `sorted` compares strings by code points) -/

/-- Lexicographic comparison of char lists by Unicode code point, the order
Python's `sorted` uses on strings. -/
def charListLE : List Char → List Char → Bool
  | [], _ => true
  | _ :: _, [] => false
  | a :: as, b :: bs =>
    if a.toNat < b.toNat then true
    else if b.toNat < a.toNat then false
    else charListLE as bs

/-- Code-point order on strings. -/
def stemRel (a b : String) : Prop := charListLE a.data b.data = true

instance : DecidableRel stemRel := fun _ _ => instDecidableEqBool _ _

/-- Python's `sorted` on a list of strings. -/
def sortStems (l : List String) : List String := List.insertionSort stemRel l

/-! ## Mesh provisioning (utils.py lines 434-505) -/

/-- The observable filesystem state seen by mesh provisioning: whether the
mesh directory exists and which `.glb` files a recursive listing finds in it. -/
structure MeshFS where
  dirExists : Bool
  glbFiles : List String

/-- `list_mesh_files` (utils.py lines 434-458): a missing or invalid directory
yields the empty list (the raise is commented out in the source); otherwise
the recursively found `.glb` files, sorted. -/
def list_mesh_files (fs : MeshFS) : List String :=
  if fs.dirExists then sortStems fs.glbFiles else []

/-- The two failure kinds of `ensure_meshes`. -/
inductive MeshError where
  | valueError (msg : String)
  | runtimeError (msg : String)
  deriving DecidableEq

/-- The side effects `ensure_meshes` may perform. -/
structure MeshEffects where
  mkdirCalled : Bool
  downloadCalled : Bool
  deriving DecidableEq

/-- `ensure_meshes` (utils.py lines 461-505).  `afterDownload` is the
filesystem state observed after `mesh_dir.mkdir(...)` and the one-shot
`download_gibson(...)` call. -/
def ensure_meshes (fs : MeshFS) (download_gibson_flag : Bool)
    (afterDownload : MeshFS) : Except MeshError (List String) × MeshEffects :=
  let meshes := list_mesh_files fs
  if meshes.length > 0 then
    (.ok meshes, ⟨false, false⟩)
  else if !download_gibson_flag then
    (.error (.valueError "No mesh files found. Use --download-gibson or point --mesh-dir to meshes."),
     ⟨false, false⟩)
  else
    let meshes2 := list_mesh_files afterDownload
    if meshes2.isEmpty then
      (.error (.runtimeError "Downloaded Gibson but still found no .glb meshes."), ⟨true, true⟩)
    else
      (.ok meshes2, ⟨true, true⟩)

/-! ## Render postcondition and output materializer (generator.py lines 108-131) -/

/-- Zero-padded decimal formatting of a natural number to `width` digits. -/
def pad (width n : ℕ) : String :=
  let s := toString n
  String.mk (List.replicate (width - s.length) '0') ++ s

/-- The output stem `scene_<5-digit scene index>_mic<2-digit mic index>`
(generator.py lines 61 and 129). -/
def outStem (sceneIdx micIdx : ℕ) : String :=
  "scene_" ++ pad 5 sceneIdx ++ "_mic" ++ pad 2 micIdx

/-- One materialized pair: the source stem in the temp workspace and the two
destination filenames (generator.py lines 128-131). -/
structure MovePair where
  srcStem : String
  dstWav : String
  dstCsv : String
  deriving DecidableEq

/-- The data of the RuntimeError raised on a pair-count mismatch
(generator.py lines 122-126): expected pair count, matched pair count, and the
wav / csv stem counts reported in the message. -/
structure RenderMismatch where
  expected : ℕ
  actual : ℕ
  numWavs : ℕ
  numCsvs : ℕ
  deriving DecidableEq

/-- `sorted(set(wavs) & set(csvs))` over filename stems
(generator.py lines 119-121). -/
def matchedStems (wavStems csvStems : List String) : List String :=
  sortStems (wavStems.dedup.filter fun s => csvStems.contains s)

/-- The per-scene postcondition check and rename computation
(generator.py lines 119-131). -/
def processRenderOutput (sceneIdx numMics : ℕ) (wavStems csvStems : List String) :
    Except RenderMismatch (List MovePair) :=
  let common := matchedStems wavStems csvStems
  if common.length ≠ numMics then
    .error ⟨numMics, common.length, wavStems.dedup.length, csvStems.dedup.length⟩
  else
    .ok (common.enum.map fun pr =>
      ⟨pr.2, outStem sceneIdx pr.1 ++ ".wav", outStem sceneIdx pr.1 ++ ".csv"⟩)

/-- The scene loop of generator.py line 60 restricted to its render
postcondition and materialization: scenes `0 .. n-1` are processed in order
and the first structural error aborts the entire run (the Except propagates;
no scene is skipped). -/
def runScenes (numMics : ℕ) (outs : ℕ → List String × List String) :
    ℕ → Except RenderMismatch (List MovePair)
  | 0 => .ok []
  | n + 1 => do
    let prev ← runScenes numMics outs n
    let moves ← processRenderOutput n numMics (outs n).1 (outs n).2
    pure (prev ++ moves)

/-! ## Theorems -/

theorem affinePoint_mem_aabb (lo hi u : Vec3) (hle : vecLE lo hi)
    (hu : (0 ≤ u.x ∧ u.x < 1) ∧ (0 ≤ u.y ∧ u.y < 1) ∧ (0 ≤ u.z ∧ u.z < 1)) :
    inAABB lo hi (affinePoint lo hi u) := by
  obtain ⟨h1, h2, h3⟩ := hle
  obtain ⟨⟨ux0, ux1⟩, ⟨uy0, uy1⟩, ⟨uz0, uz1⟩⟩ := hu
  refine ⟨⟨?_, ?_⟩, ⟨?_, ?_⟩, ⟨?_, ?_⟩⟩ <;> simp only [affinePoint] <;> nlinarith

theorem micLoop_all_reject (scene : MicScene) (lo hi : Vec3) (draws : ℕ → ℚ)
    (hrej : ∀ p, scene.acceptPos p = false) :
    ∀ m idx, 1 ≤ m →
      micLoop scene lo hi draws idx m =
        { ok := scene.acceptNone,
          trace := ((List.range' idx m 3).map fun j =>
              MicAttempt.modeA (affinePoint lo hi (sampleUnitVec draws j))) ++
            [MicAttempt.modeB],
          rngIdx := idx + 3 * m } := by
  intro m
  induction m with
  | zero => intro idx h; exact absurd h (by decide)
  | succ n ih =>
    intro idx _
    rcases Nat.eq_zero_or_pos n with hn | hn
    · subst hn
      simp [micLoop, hrej, micModeB, List.range'_succ]
    · have hne : n ≠ 0 := by omega
      rw [micLoop]
      simp only [hrej, Bool.false_eq_true, if_false, hne, ite_false]
      rw [ih (idx + 3) hn]
      simp [List.range'_succ]
      omega

/-- C1: with `rng_needed=True`, a scene rejecting every explicit position, and
`max_attempts ≥ 1`, `add_random_microphone` makes exactly `max_attempts` Mode A
attempts at freshly drawn in-bounding-box positions (consecutive rng stream
indices `idx, idx+3, …`), then exactly one Mode B attempt; if Mode B is also
rejected it returns `False` (no exception escapes: the model is total). -/
theorem add_random_microphone_exhausts_then_fallback
    (scene : MicScene) (lo hi : Vec3) (draws : ℕ → ℚ) (idx m : ℕ)
    (hm : 1 ≤ m)
    (hrej : ∀ p, scene.acceptPos p = false)
    (hB : scene.acceptNone = false)
    (hdraws : unitStream draws)
    (hle : vecLE lo hi) :
    (add_random_microphone scene lo hi draws idx true m).ok = false ∧
    (add_random_microphone scene lo hi draws idx true m).trace =
      ((List.range' idx m 3).map fun j =>
        MicAttempt.modeA (affinePoint lo hi (sampleUnitVec draws j))) ++
      [MicAttempt.modeB] ∧
    (∀ p, MicAttempt.modeA p ∈ (add_random_microphone scene lo hi draws idx true m).trace →
      inAABB lo hi p) := by
  have h := micLoop_all_reject scene lo hi draws hrej m idx hm
  have harm : add_random_microphone scene lo hi draws idx true m =
      micLoop scene lo hi draws idx m := rfl
  rw [harm, h]
  refine ⟨hB, rfl, ?_⟩
  intro p hp
  simp only [List.mem_append, List.mem_map, List.mem_singleton] at hp
  rcases hp with ⟨j, _, hpj⟩ | hmb
  · have hp' : p = affinePoint lo hi (sampleUnitVec draws j) :=
      (MicAttempt.modeA.injEq _ _).mp hpj.symm
    subst hp'
    exact affinePoint_mem_aabb lo hi _ hle
      ⟨hdraws j, hdraws (j + 1), hdraws (j + 2)⟩
  · exact absurd hmb (by simp)

theorem add_random_microphone_exhausts_then_fallback_witness :
    (add_random_microphone ⟨fun _ => false, false⟩ ⟨0, 0, 0⟩ ⟨1, 1, 1⟩
        (fun _ => 1/2) 0 true 2).ok = false ∧
    (add_random_microphone ⟨fun _ => false, false⟩ ⟨0, 0, 0⟩ ⟨1, 1, 1⟩
        (fun _ => 1/2) 0 true 2).trace =
      ((List.range' 0 2 3).map fun j =>
        MicAttempt.modeA (affinePoint ⟨0, 0, 0⟩ ⟨1, 1, 1⟩ (sampleUnitVec (fun _ => 1/2) j))) ++
      [MicAttempt.modeB] ∧
    (∀ p, MicAttempt.modeA p ∈ (add_random_microphone ⟨fun _ => false, false⟩ ⟨0, 0, 0⟩
        ⟨1, 1, 1⟩ (fun _ => 1/2) 0 true 2).trace → inAABB ⟨0, 0, 0⟩ ⟨1, 1, 1⟩ p) :=
  add_random_microphone_exhausts_then_fallback ⟨fun _ => false, false⟩ ⟨0, 0, 0⟩ ⟨1, 1, 1⟩
    (fun _ => 1/2) 0 2 (by decide) (fun _ => rfl) rfl
    (fun _ => ⟨by norm_num, by norm_num⟩) ⟨by norm_num, by norm_num, by norm_num⟩

/-- C9: with `rng_needed=True` and `max_attempts = 0`, `add_random_microphone`
returns `False` immediately with an empty attempt trace: no Mode A attempt is
made, the Mode B fallback is never reached, and no rng state is consumed. -/
theorem add_random_microphone_zero_attempts (scene : MicScene) (lo hi : Vec3)
    (draws : ℕ → ℚ) (idx : ℕ) :
    add_random_microphone scene lo hi draws idx true 0 =
      { ok := false, trace := [], rngIdx := idx } := rfl

theorem fgLoop_trace_cases (scene : EventScene) (nFiles : ℕ)
    (sd dmin dmax smin smax : ℚ) (lo hi : Vec3) (draws : ℕ → ℚ)
    (w : ℕ) (dur st sn : ℚ) :
    ∀ m idx c,
      c ∈ (fgLoop scene nFiles sd dmin dmax smin smax lo hi draws w dur st sn idx m).trace →
      (∃ j, c = fgModeACall w dur st sn (affinePoint lo hi (sampleUnitVec draws j))) ∨
      (∃ j, c = fgModeBCall nFiles sd dmin dmax smin smax draws j) := by
  intro m
  induction m with
  | zero => intro idx c hc; simp [fgLoop] at hc
  | succ n ih =>
    intro idx c hc
    by_cases ha : scene.accept
        (fgModeACall w dur st sn (affinePoint lo hi (sampleUnitVec draws idx))) = true
    · simp [fgLoop, ha] at hc
      exact Or.inl ⟨idx, hc⟩
    · by_cases hn : n = 0
      · simp [fgLoop, ha, hn, fgModeB] at hc
        rcases hc with hc | hc
        · exact Or.inl ⟨idx, hc⟩
        · exact Or.inr ⟨idx + 3, hc⟩
      · simp only [fgLoop, ha, Bool.false_eq_true, if_false, hn, ite_false] at hc
        rcases List.mem_cons.mp hc with hc | hc
        · exact Or.inl ⟨idx, hc⟩
        · exact ih (idx + 3) c hc

theorem fg_event_trace_cases (scene : EventScene) (nFiles : ℕ)
    (sd dmin dmax smin smax : ℚ) (lo hi : Vec3) (draws : ℕ → ℚ)
    (idx : ℕ) (b : Bool) (m : ℕ) :
    ∀ c ∈ (add_random_fg_event scene nFiles sd dmin dmax smin smax lo hi draws idx b m).trace,
      (∃ j, c = fgModeACall (fgDrawWav nFiles draws idx)
          (fgDrawDuration dmin dmax draws idx) (fgDrawStart sd dmin dmax draws idx)
          (fgDrawSnr smin smax draws idx)
          (affinePoint (shrinkLo lo hi) (shrinkHi lo hi) (sampleUnitVec draws j))) ∨
      (∃ j, c = fgModeBCall nFiles sd dmin dmax smin smax draws j) := by
  intro c hc
  cases b with
  | false =>
    simp [add_random_fg_event, fgModeB] at hc
    exact Or.inr ⟨idx, hc⟩
  | true =>
    exact fgLoop_trace_cases scene nFiles sd dmin dmax smin smax
      (shrinkLo lo hi) (shrinkHi lo hi) draws _ _ _ _ m (idx + 4) c hc

theorem fgDraw_duration_start_bounds (sd dmin dmax : ℚ) (draws : ℕ → ℚ) (j : ℕ)
    (hdm : dmin ≤ dmax) (hds : dmax ≤ sd) (hdraws : unitStream draws) :
    dmin ≤ fgDrawDuration dmin dmax draws j ∧
    fgDrawDuration dmin dmax draws j ≤ dmax ∧
    0 ≤ fgDrawStart sd dmin dmax draws j ∧
    fgDrawStart sd dmin dmax draws j + fgDrawDuration dmin dmax draws j ≤ sd := by
  obtain ⟨h10, h11⟩ := hdraws (j + 1)
  obtain ⟨h20, h21⟩ := hdraws (j + 2)
  have hd1 : dmin ≤ fgDrawDuration dmin dmax draws j := by
    simp only [fgDrawDuration, uniformDraw]; nlinarith
  have hd2 : fgDrawDuration dmin dmax draws j ≤ dmax := by
    simp only [fgDrawDuration, uniformDraw]; nlinarith
  refine ⟨hd1, hd2, ?_, ?_⟩
  · simp only [fgDrawStart, uniformDraw]; nlinarith
  · simp only [fgDrawStart, uniformDraw]; nlinarith

/-- C8: whenever `event_duration_min ≤ event_duration_max ≤ scene_duration`,
every `add_event_static` call attempted by `add_random_fg_event` (either mode,
including the re-drawn fallback) carries a duration in
`[event_duration_min, event_duration_max]` and a start time with
`0 ≤ start` and `start + duration ≤ scene_duration`. -/
theorem fg_event_duration_start_bounds (scene : EventScene) (nFiles : ℕ)
    (sd dmin dmax smin smax : ℚ) (lo hi : Vec3) (draws : ℕ → ℚ)
    (idx : ℕ) (b : Bool) (m : ℕ)
    (hdm : dmin ≤ dmax) (hds : dmax ≤ sd) (hdraws : unitStream draws) :
    ∀ c ∈ (add_random_fg_event scene nFiles sd dmin dmax smin smax lo hi draws idx b m).trace,
      dmin ≤ c.duration ∧ c.duration ≤ dmax ∧
      0 ≤ c.start ∧ c.start + c.duration ≤ sd := by
  intro c hc
  rcases fg_event_trace_cases scene nFiles sd dmin dmax smin smax lo hi draws idx b m c hc
    with ⟨j, hj⟩ | ⟨j, hj⟩
  · subst hj
    obtain ⟨h1, h2, h3, h4⟩ := fgDraw_duration_start_bounds sd dmin dmax draws idx hdm hds hdraws
    exact ⟨h1, h2, h3, h4⟩
  · subst hj
    obtain ⟨h1, h2, h3, h4⟩ := fgDraw_duration_start_bounds sd dmin dmax draws j hdm hds hdraws
    exact ⟨h1, h2, h3, h4⟩

theorem fg_event_duration_start_bounds_witness :
    2 ≤ (fgModeBCall 1 60 2 2 0 16 (fun _ => 1/2) 0).duration ∧
    (fgModeBCall 1 60 2 2 0 16 (fun _ => 1/2) 0).duration ≤ 2 ∧
    0 ≤ (fgModeBCall 1 60 2 2 0 16 (fun _ => 1/2) 0).start ∧
    (fgModeBCall 1 60 2 2 0 16 (fun _ => 1/2) 0).start +
      (fgModeBCall 1 60 2 2 0 16 (fun _ => 1/2) 0).duration ≤ 60 :=
  fg_event_duration_start_bounds ⟨fun _ => true⟩ 1 60 2 2 0 16 ⟨0, 0, 0⟩ ⟨1, 1, 1⟩
    (fun _ => 1/2) 0 false 1 (by norm_num) (by norm_num)
    (fun _ => ⟨by norm_num, by norm_num⟩) _ (by simp [add_random_fg_event, fgModeB])

/-- C2 (amended): the per-event draws of utils.py lines 640-643 are fixed for
every Mode A position-retry attempt of `add_random_fg_event`: each attempted
call carrying an explicit position uses exactly the file, duration, start and
snr drawn once at the top of the call (rng indices `idx .. idx+3`). -/
theorem fg_event_modeA_params_fixed (scene : EventScene) (nFiles : ℕ)
    (sd dmin dmax smin smax : ℚ) (lo hi : Vec3) (draws : ℕ → ℚ) (idx m : ℕ) :
    ∀ c ∈ (add_random_fg_event scene nFiles sd dmin dmax smin smax lo hi draws idx true m).trace,
      c.pos.isSome = true →
      c.wav = fgDrawWav nFiles draws idx ∧
      c.duration = fgDrawDuration dmin dmax draws idx ∧
      c.start = fgDrawStart sd dmin dmax draws idx ∧
      c.snr = fgDrawSnr smin smax draws idx := by
  intro c hc hsome
  rcases fg_event_trace_cases scene nFiles sd dmin dmax smin smax lo hi draws idx true m c hc
    with ⟨j, hj⟩ | ⟨j, hj⟩
  · subst hj; exact ⟨rfl, rfl, rfl, rfl⟩
  · subst hj; exact absurd hsome (by simp [fgModeBCall])

theorem fg_event_modeA_params_fixed_witness :
    (fgModeACall (fgDrawWav 1 counterexampleDraws 0)
        (fgDrawDuration 2 2 counterexampleDraws 0)
        (fgDrawStart 60 2 2 counterexampleDraws 0)
        (fgDrawSnr 0 16 counterexampleDraws 0)
        (affinePoint (shrinkLo ⟨0, 0, 0⟩ ⟨1, 1, 1⟩) (shrinkHi ⟨0, 0, 0⟩ ⟨1, 1, 1⟩)
          (sampleUnitVec counterexampleDraws 4))).wav =
      fgDrawWav 1 counterexampleDraws 0 ∧
    (fgModeACall (fgDrawWav 1 counterexampleDraws 0)
        (fgDrawDuration 2 2 counterexampleDraws 0)
        (fgDrawStart 60 2 2 counterexampleDraws 0)
        (fgDrawSnr 0 16 counterexampleDraws 0)
        (affinePoint (shrinkLo ⟨0, 0, 0⟩ ⟨1, 1, 1⟩) (shrinkHi ⟨0, 0, 0⟩ ⟨1, 1, 1⟩)
          (sampleUnitVec counterexampleDraws 4))).duration =
      fgDrawDuration 2 2 counterexampleDraws 0 ∧
    (fgModeACall (fgDrawWav 1 counterexampleDraws 0)
        (fgDrawDuration 2 2 counterexampleDraws 0)
        (fgDrawStart 60 2 2 counterexampleDraws 0)
        (fgDrawSnr 0 16 counterexampleDraws 0)
        (affinePoint (shrinkLo ⟨0, 0, 0⟩ ⟨1, 1, 1⟩) (shrinkHi ⟨0, 0, 0⟩ ⟨1, 1, 1⟩)
          (sampleUnitVec counterexampleDraws 4))).start =
      fgDrawStart 60 2 2 counterexampleDraws 0 ∧
    (fgModeACall (fgDrawWav 1 counterexampleDraws 0)
        (fgDrawDuration 2 2 counterexampleDraws 0)
        (fgDrawStart 60 2 2 counterexampleDraws 0)
        (fgDrawSnr 0 16 counterexampleDraws 0)
        (affinePoint (shrinkLo ⟨0, 0, 0⟩ ⟨1, 1, 1⟩) (shrinkHi ⟨0, 0, 0⟩ ⟨1, 1, 1⟩)
          (sampleUnitVec counterexampleDraws 4))).snr =
      fgDrawSnr 0 16 counterexampleDraws 0 :=
  fg_event_modeA_params_fixed ⟨fun c => c.pos.isNone⟩ 1 60 2 2 0 16 ⟨0, 0, 0⟩ ⟨1, 1, 1⟩
    counterexampleDraws 0 1 _
    (by simp [add_random_fg_event, fgLoop, fgModeACall, fgModeB])
    (by simp [fgModeACall])

/-- C2 counterexample: with a scene that rejects every explicit position and
accepts the backend-driven call, `max_attempts = 1` and the draw stream
`counterexampleDraws`, the single Mode A attempt carries snr 4 but the Mode B
fallback carries snr 12: the fallback is a full recursive call that re-draws
the per-event parameters, so the snr (and likewise file, duration, start) is
not fixed across all attempts of the event. -/
theorem fg_event_fallback_redraws_counterexample :
    ((add_random_fg_event ⟨fun c => c.pos.isNone⟩ 1 60 2 2 0 16 ⟨0, 0, 0⟩ ⟨1, 1, 1⟩
        counterexampleDraws 0 true 1).trace.map EventCall.snr) = [4, 12] ∧
    (4 : ℚ) ≠ 12 := by
  refine ⟨?_, by norm_num⟩
  simp only [add_random_fg_event, fgLoop, fgModeB, fgModeACall, fgModeBCall,
    fgDrawWav, fgDrawDuration, fgDrawStart, fgDrawSnr, intDraw, uniformDraw,
    counterexampleDraws, affinePoint, sampleUnitVec, shrinkLo, shrinkHi]
  norm_num

theorem add_random_fg_event_modeB_trace (scene : EventScene) (nFiles : ℕ)
    (sd dmin dmax smin smax : ℚ) (lo hi : Vec3) (draws : ℕ → ℚ) (idx m : ℕ) :
    (add_random_fg_event scene nFiles sd dmin dmax smin smax lo hi draws idx false m).trace =
      [fgModeBCall nFiles sd dmin dmax smin smax draws idx] := rfl

/-- C3 (amended): backend-driven Mode B, not Mode A, is the mode actually used
for foreground-event placement: the scene-assembly driver calls
`add_random_fg_event` with `rng_needed=False` (and `False` is also the
function's default), so every `add_event_static` call issued while the driver
places its `events_per_scene` events passes `position=None`, delegating
position selection to the backend's internal sampler; the caller-rng 10%-margin
box sampling is reached only when `rng_needed=True` is passed explicitly. -/
theorem driver_events_delegate_position (scene : EventScene) (nFiles : ℕ)
    (sd dmin dmax smin smax : ℚ) (lo hi : Vec3) (draws : ℕ → ℚ) :
    ∀ n idx c,
      c ∈ (driverPlaceEvents scene nFiles sd dmin dmax smin smax lo hi draws idx n).1 →
      c.pos = none := by
  intro n
  induction n with
  | zero => intro idx c hc; simp [driverPlaceEvents] at hc
  | succ k ih =>
    intro idx c hc
    simp only [driverPlaceEvents] at hc
    rcases List.mem_append.mp hc with hc | hc
    · rw [add_random_fg_event_modeB_trace] at hc
      rw [List.mem_singleton.mp hc]
      rfl
    · exact ih _ c hc

theorem driver_events_delegate_position_witness :
    (fgModeBCall 1 60 2 2 0 16 counterexampleDraws 0).pos = none :=
  driver_events_delegate_position ⟨fun _ => true⟩ 1 60 2 2 0 16 ⟨0, 0, 0⟩ ⟨1, 1, 1⟩
    counterexampleDraws 1 0 _
    (by simp [driverPlaceEvents, add_random_fg_event, fgModeB])

/-- C3 counterexample: a driver run placing one event issues exactly one
backend call and its position argument is `None` (backend-delegated), not a
point drawn from the 10%-shrunk bounding box. -/
theorem driver_events_modeB_counterexample :
    ((driverPlaceEvents ⟨fun _ => true⟩ 1 60 2 2 0 16 ⟨0, 0, 0⟩ ⟨1, 1, 1⟩
        counterexampleDraws 0 1).1.map EventCall.pos) = [none] ∧
    ∀ p : Vec3, (none : Option Vec3) ≠ some p := by
  constructor
  · simp [driverPlaceEvents, add_random_fg_event, fgModeB, fgModeBCall]
  · intro p h
    exact Option.noConfusion h

theorem add_random_fg_event_classId (scene : EventScene) (nFiles : ℕ)
    (sd dmin dmax smin smax : ℚ) (lo hi : Vec3) (draws : ℕ → ℚ)
    (idx : ℕ) (b : Bool) (m : ℕ) :
    ∀ c ∈ (add_random_fg_event scene nFiles sd dmin dmax smin smax lo hi draws idx b m).trace,
      c.classId = 0 := by
  intro c hc
  rcases fg_event_trace_cases scene nFiles sd dmin dmax smin smax lo hi draws idx b m c hc
    with ⟨j, hj⟩ | ⟨j, hj⟩ <;> subst hj <;> rfl

/-- C10: the generator's class mapping returns `(0, "dummy")` for every
filepath, and every `add_event_static` call issued by `add_random_fg_event`
(either mode, fallback included) and by the driver's per-scene event loop
passes `class_id = 0`, so no produced event metadata can carry a class index
other than 0. -/
theorem fg_event_class_id_always_zero (scene : EventScene) (nFiles : ℕ)
    (sd dmin dmax smin smax : ℚ) (lo hi : Vec3) (draws : ℕ → ℚ)
    (idx : ℕ) (b : Bool) (m : ℕ) (fp : String) :
    infer_label_idx_from_filepath fp = (0, "dummy") ∧
    (∀ c ∈ (add_random_fg_event scene nFiles sd dmin dmax smin smax lo hi draws idx b m).trace,
      c.classId = 0) ∧
    (∀ n idx2 c,
      c ∈ (driverPlaceEvents scene nFiles sd dmin dmax smin smax lo hi draws idx2 n).1 →
      c.classId = 0) := by
  refine ⟨rfl, add_random_fg_event_classId scene nFiles sd dmin dmax smin smax lo hi draws idx b m, ?_⟩
  intro n
  induction n with
  | zero => intro idx2 c hc; simp [driverPlaceEvents] at hc
  | succ k ih =>
    intro idx2 c hc
    simp only [driverPlaceEvents] at hc
    rcases List.mem_append.mp hc with hc | hc
    · exact add_random_fg_event_classId scene nFiles sd dmin dmax smin smax lo hi draws idx2
        false 30 c hc
    · exact ih _ c hc

theorem fg_event_class_id_always_zero_witness :
    (fgModeBCall 1 60 2 2 0 16 counterexampleDraws 5).classId = 0 :=
  (fg_event_class_id_always_zero ⟨fun _ => true⟩ 1 60 2 2 0 16 ⟨0, 0, 0⟩ ⟨1, 1, 1⟩
      counterexampleDraws 5 false 1 "any.wav").2.1 _
    (by simp [add_random_fg_event, fgModeB])

/-- C5: integer-typed config keys reject strings, floats and booleans outright
(no coercion), while float-typed keys accept integers (converted) and reject
booleans; instantiated on `scene.sample_rate` via the scene-section build of
`load_config`. -/
theorem coerce_int_strict_and_float_lenient (s : String) (q : ℚ) (b : Bool)
    (n : ℤ) (key : String) (m : String → PyVal) :
    _coerce_int (.pyStr s) key = .error ("Config key " ++ key ++ " must be an integer.") ∧
    _coerce_int (.pyFloat q) key = .error ("Config key " ++ key ++ " must be an integer.") ∧
    _coerce_int (.pyBool b) key = .error ("Config key " ++ key ++ " must be an integer.") ∧
    _coerce_float (.pyInt n) key = .ok (n : ℚ) ∧
    _coerce_float (.pyBool b) key = .error ("Config key " ++ key ++ " must be a number.") ∧
    (m "sample_rate" = .pyStr s →
      buildSceneSection m =
        .error ("Config key scene.sample_rate must be an integer.")) ∧
    (m "sample_rate" = .pyFloat q →
      buildSceneSection m =
        .error ("Config key scene.sample_rate must be an integer.")) ∧
    (m "sample_rate" = .pyBool b →
      buildSceneSection m =
        .error ("Config key scene.sample_rate must be an integer.")) := by
  refine ⟨rfl, rfl, rfl, rfl, rfl, ?_, ?_, ?_⟩ <;>
    (intro h; simp [buildSceneSection, h, _coerce_int, Bind.bind, Except.bind])

theorem coerce_int_strict_and_float_lenient_witness :
    buildSceneSection (fun k => if k = "sample_rate" then .pyStr "24000" else .pyInt 1) =
      .error ("Config key scene.sample_rate must be an integer.") :=
  (coerce_int_strict_and_float_lenient "24000" 0 false 0 "scene.sample_rate"
      (fun k => if k = "sample_rate" then .pyStr "24000" else .pyInt 1)).2.2.2.2.2.1
    (by simp)

theorem charListLE_total (as : List Char) :
    ∀ bs, charListLE as bs = true ∨ charListLE bs as = true := by
  induction as with
  | nil => intro bs; exact Or.inl rfl
  | cons a as ih =>
    intro bs
    cases bs with
    | nil => exact Or.inr rfl
    | cons b bs =>
      by_cases hab : a.toNat < b.toNat
      · left; simp [charListLE, hab]
      · by_cases hba : b.toNat < a.toNat
        · right; simp [charListLE, hba]
        · rcases ih bs with h | h
          · left; simp [charListLE, hab, hba, h]
          · right; simp [charListLE, hab, hba, h]

theorem charListLE_trans (as : List Char) :
    ∀ bs cs, charListLE as bs = true → charListLE bs cs = true →
      charListLE as cs = true := by
  induction as with
  | nil => intro bs cs _ _; rfl
  | cons a as ih =>
    intro bs cs hab hbc
    cases bs with
    | nil => simp [charListLE] at hab
    | cons b bs =>
      cases cs with
      | nil => simp [charListLE] at hbc
      | cons c cs =>
        by_cases h1 : a.toNat < b.toNat
        · by_cases h3 : b.toNat < c.toNat
          · have h5 : a.toNat < c.toNat := by omega
            simp [charListLE, h5]
          · by_cases h4 : c.toNat < b.toNat
            · simp [charListLE, h3, h4] at hbc
            · have h5 : a.toNat < c.toNat := by omega
              simp [charListLE, h5]
        · by_cases h2 : b.toNat < a.toNat
          · simp [charListLE, h1, h2] at hab
          · simp only [charListLE, h1, h2] at hab
            by_cases h3 : b.toNat < c.toNat
            · have h5 : a.toNat < c.toNat := by omega
              simp [charListLE, h5]
            · by_cases h4 : c.toNat < b.toNat
              · simp [charListLE, h3, h4] at hbc
              · simp only [charListLE, h3, h4] at hbc
                have h5 : ¬ a.toNat < c.toNat := by omega
                have h6 : ¬ c.toNat < a.toNat := by omega
                simp only [charListLE, h5, h6, if_false]
                exact ih bs cs (by simpa using hab) (by simpa using hbc)

theorem sortStems_sorted (l : List String) : (sortStems l).Sorted stemRel :=
  @List.sorted_insertionSort _ stemRel _
    ⟨fun a b => charListLE_total a.data b.data⟩
    ⟨fun a b c => charListLE_trans a.data b.data c.data⟩ l

/-- C6: a non-existent directory counts as zero meshes rather than failing;
zero meshes with the download flag off is a configuration (value) error with
no download attempted; zero meshes with the flag on triggers mkdir plus the
one-shot download and re-lists, failing with a runtime error only if the
re-listing is still empty; and any successful return is the sorted list of
discovered mesh files. -/
theorem ensure_meshes_spec (fs : MeshFS) (flag : Bool) (afterDownload : MeshFS) :
    (fs.dirExists = false → list_mesh_files fs = []) ∧
    (list_mesh_files fs = [] → flag = false →
      ensure_meshes fs flag afterDownload =
        (.error (.valueError "No mesh files found. Use --download-gibson or point --mesh-dir to meshes."),
         ⟨false, false⟩)) ∧
    (list_mesh_files fs = [] → flag = true →
      (ensure_meshes fs flag afterDownload).2 = ⟨true, true⟩ ∧
      (list_mesh_files afterDownload = [] →
        (ensure_meshes fs flag afterDownload).1 =
          .error (.runtimeError "Downloaded Gibson but still found no .glb meshes.")) ∧
      (list_mesh_files afterDownload ≠ [] →
        (ensure_meshes fs flag afterDownload).1 = .ok (list_mesh_files afterDownload))) ∧
    (list_mesh_files fs ≠ [] →
      ensure_meshes fs flag afterDownload = (.ok (list_mesh_files fs), ⟨false, false⟩)) ∧
    (∀ l, (ensure_meshes fs flag afterDownload).1 = .ok l → l.Sorted stemRel) := by
  have hsorted : ∀ g : MeshFS, (list_mesh_files g).Sorted stemRel := by
    intro g
    unfold list_mesh_files
    by_cases hd : g.dirExists
    · simp only [hd, if_true]
      exact sortStems_sorted g.glbFiles
    · simp [hd]
  refine ⟨?_, ?_, ?_, ?_, ?_⟩
  · intro hd
    simp [list_mesh_files, hd]
  · intro hz hflag
    simp [ensure_meshes, hz, hflag]
  · intro hz hflag
    unfold ensure_meshes
    simp only [hz, List.length_nil, gt_iff_lt, lt_irrefl, if_false, hflag,
      Bool.not_true, Bool.false_eq_true, if_false]
    by_cases h2 : list_mesh_files afterDownload = []
    · simp [h2]
    · simp [h2, List.isEmpty_iff]
  · intro hnz
    have hlen : 0 < (list_mesh_files fs).length := List.length_pos.mpr hnz
    simp [ensure_meshes, hlen]
  · intro l hl
    unfold ensure_meshes at hl
    by_cases h1 : 0 < (list_mesh_files fs).length
    · simp only [gt_iff_lt, h1, if_true] at hl
      cases hl
      exact hsorted fs
    · simp only [gt_iff_lt, h1, if_false] at hl
      by_cases hflag : flag
      · simp only [hflag, Bool.not_true, Bool.false_eq_true, if_false] at hl
        by_cases h2 : (list_mesh_files afterDownload).isEmpty
        · simp [h2] at hl
        · simp only [h2, Bool.false_eq_true, if_false] at hl
          cases hl
          exact hsorted afterDownload
      · simp only [Bool.not_eq_true] at hflag
        simp [hflag] at hl

theorem ensure_meshes_spec_witness :
    ensure_meshes ⟨false, []⟩ false ⟨false, []⟩ =
      (.error (.valueError "No mesh files found. Use --download-gibson or point --mesh-dir to meshes."),
       ⟨false, false⟩) :=
  (ensure_meshes_spec ⟨false, []⟩ false ⟨false, []⟩).2.1 (by simp [list_mesh_files]) rfl

/-- C4: if the matched wav/csv pair count differs from `num_mics_per_scene`,
the scene's postcondition check yields the fatal structural error carrying the
expected and actual counts, and any run containing such a scene aborts with
that error instead of skipping the scene. -/
theorem render_mismatch_aborts (sceneIdx numMics : ℕ) (w c : List String)
    (h : (matchedStems w c).length ≠ numMics) :
    processRenderOutput sceneIdx numMics w c =
      .error ⟨numMics, (matchedStems w c).length, w.dedup.length, c.dedup.length⟩ ∧
    ∀ n, runScenes numMics (fun _ => (w, c)) (n + 1) =
      .error ⟨numMics, (matchedStems w c).length, w.dedup.length, c.dedup.length⟩ := by
  have hp : ∀ i, processRenderOutput i numMics w c =
      .error ⟨numMics, (matchedStems w c).length, w.dedup.length, c.dedup.length⟩ := by
    intro i
    simp [processRenderOutput, h]
  refine ⟨hp sceneIdx, ?_⟩
  intro n
  induction n with
  | zero =>
    rw [runScenes, runScenes, hp 0]
    rfl
  | succ k ih =>
    rw [runScenes, ih]
    rfl

theorem render_mismatch_aborts_witness :
    processRenderOutput 0 5 ["a", "b", "c", "d"] ["a", "b", "c", "d", "e"] =
      .error ⟨5, (matchedStems ["a", "b", "c", "d"] ["a", "b", "c", "d", "e"]).length,
        (["a", "b", "c", "d"] : List String).dedup.length,
        (["a", "b", "c", "d", "e"] : List String).dedup.length⟩ ∧
    ∀ n, runScenes 5 (fun _ => (["a", "b", "c", "d"], ["a", "b", "c", "d", "e"])) (n + 1) =
      .error ⟨5, (matchedStems ["a", "b", "c", "d"] ["a", "b", "c", "d", "e"]).length,
        (["a", "b", "c", "d"] : List String).dedup.length,
        (["a", "b", "c", "d", "e"] : List String).dedup.length⟩ :=
  render_mismatch_aborts 0 5 ["a", "b", "c", "d"] ["a", "b", "c", "d", "e"] (by decide)

/-- C7: when the matched pair count equals `num_mics_per_scene`, the
materializer processes the matched stems in sorted order and renames the k-th
pair (0-based, densely numbered regardless of stem content) to
`scene_<sceneIdx padded to 5>_mic<k padded to 2>.{wav,csv}`. -/
theorem processRenderOutput_renames (sceneIdx numMics : ℕ) (w c : List String)
    (h : (matchedStems w c).length = numMics) :
    processRenderOutput sceneIdx numMics w c =
      .ok ((matchedStems w c).enum.map fun pr =>
        ⟨pr.2, outStem sceneIdx pr.1 ++ ".wav", outStem sceneIdx pr.1 ++ ".csv"⟩) ∧
    (matchedStems w c).Sorted stemRel := by
  constructor
  · simp [processRenderOutput, h]
  · exact sortStems_sorted _

theorem processRenderOutput_renames_witness :
    processRenderOutput 7 3 ["a", "b", "c"] ["a", "b", "c"] =
      .ok [⟨"a", "scene_00007_mic00.wav", "scene_00007_mic00.csv"⟩,
           ⟨"b", "scene_00007_mic01.wav", "scene_00007_mic01.csv"⟩,
           ⟨"c", "scene_00007_mic02.wav", "scene_00007_mic02.csv"⟩] := by
  have h := (processRenderOutput_renames 7 3 ["a", "b", "c"] ["a", "b", "c"] (by decide)).1
  rw [h]
  simp only [Except.ok.injEq]
  decide
